import Mathlib

/-!
Verification of the camera adjustment core of mhworld-custom-fov.

Shallow embedding of src/src/camera.cpp, src/src/config.hpp and
src/src/dllmain.cpp. C++ `float` values are modelled as real numbers,
so the trigonometric fov math is exact rather than approximate; the
in-memory camera object is modelled as a map from byte addresses to
real-valued 32-bit cells (each of the four parameter fields and the
camera identifier occupies its own, pairwise distinct, cell address).
The process-wide globals (`g_state`, `g_config`) are threaded through
explicitly as arguments and results.
-/

namespace MHW

/-- Embedding of `enum class camera::Context { Hub, Room, Quest }`
from src/src/camera.hpp (src/unnamed/part_001). -/
inductive Context : Type
| Hub
| Room
| Quest
deriving DecidableEq, Repr

/-- Camera identifiers are 32-bit values read from raw memory
(`enum class CameraID : uint32_t`, src/src/camera.cpp lines 24-44);
any 32-bit value can occur, so the type is a plain natural number and
the enumerators are named constants. -/
def Normal : ℕ := 0

/-- Enumerator `CameraID::Sprint`. -/
def Sprint : ℕ := 3

/-- Enumerator `CameraID::Combat`. -/
def Combat : ℕ := 83

/-- Enumerator `CameraID::BaseHub`. -/
def BaseHub : ℕ := 85

/-- Enumerator `CameraID::BaseHubSprint`. -/
def BaseHubSprint : ℕ := 86

/-- Enumerator `CameraID::LivingQuarters`. -/
def LivingQuarters : ℕ := 118

/-- Enumerator `CameraID::PrivateQuarters`. -/
def PrivateQuarters : ℕ := 119

/-- Enumerator `CameraID::PrivateSuite`. -/
def PrivateSuite : ℕ := 120

/-- Enumerator `CameraID::SurveyorSet`. -/
def SurveyorSet : ℕ := 147

/-- Enumerator `CameraID::Seliana`. -/
def Seliana : ℕ := 252

/-- Enumerator `CameraID::SelianaSprint`. -/
def SelianaSprint : ℕ := 253

/-- Enumerator `CameraID::SelianaHub`. -/
def SelianaHub : ℕ := 254

/-- Enumerator `CameraID::SelianaHubSprint`. -/
def SelianaHubSprint : ℕ := 255

/-- Enumerator `CameraID::SelianaRoom`. -/
def SelianaRoom : ℕ := 256

/-- Embedding of `sets_hub_context` (src/src/camera.cpp lines 52-63):
membership of the identifier in the hub-context set. -/
def sets_hub_context (id : ℕ) : Bool :=
  [BaseHub, BaseHubSprint, Seliana, SelianaSprint, SelianaHub, SelianaHubSprint].contains id

/-- Embedding of `sets_room_context` (src/src/camera.cpp lines 65-74):
membership of the identifier in the room-context set. -/
def sets_room_context (id : ℕ) : Bool :=
  [LivingQuarters, PrivateQuarters, PrivateSuite, SelianaRoom].contains id

/-- Embedding of `sets_quest_context` (src/src/camera.cpp lines 76-84):
membership of the identifier in the quest-context set. -/
def sets_quest_context (id : ℕ) : Bool :=
  [Normal, Sprint, Combat].contains id

/-- Embedding of `struct camera::State` (src/src/camera.cpp lines 86-91):
the tracked context and the most recently observed camera identifier. -/
structure State : Type where
  context : Context
  camera_id : ℕ
deriving DecidableEq, Repr

/-- Initial value of the process-wide tracker `g_state`
(src/src/camera.cpp lines 86-93): context `Quest`, id `Normal`. -/
def init_state : State := { context := Context.Quest, camera_id := Normal }

/-- Embedding of `State::update` (src/src/camera.cpp lines 95-101).
The C++ body is three independent `if` statements, each unconditionally
overwriting `context` when its set matches (so the quest check,
evaluated last, would win on overlap), followed by an unconditional
write of `camera_id`. -/
def State.update (s : State) (new_camera_id : ℕ) : State :=
  let s1 := if sets_hub_context new_camera_id then { s with context := Context.Hub } else s
  let s2 := if sets_room_context new_camera_id then { s1 with context := Context.Room } else s1
  let s3 := if sets_quest_context new_camera_id then { s2 with context := Context.Quest } else s2
  { s3 with camera_id := new_camera_id }

/-- The constant `PI` from src/src/camera.cpp line 103 (`3.1415927f`),
as the literal rational it is written as. -/
def PI : ℝ := 3.1415927

/-- Embedding of `proj_scale_from_fov` (src/src/camera.cpp lines 105-107):
half-angle tangent of the field of view. -/
noncomputable def proj_scale_from_fov (fov : ℝ) : ℝ :=
  Real.tan (PI / 360 * fov)

/-- Embedding of `fov_from_proj_scale` (src/src/camera.cpp lines 109-111):
inverse of the projection-scale map. -/
noncomputable def fov_from_proj_scale (proj_scale : ℝ) : ℝ :=
  360 / PI * Real.arctan proj_scale

/-- Embedding of `struct Params` (src/src/camera.cpp lines 113-123):
the four camera parameters. -/
structure Params : Type where
  fov : ℝ
  distance : ℝ
  height : ℝ
  shift : ℝ

/-- Embedding of `std::round` on the values the program feeds it:
round to nearest, halfway cases away from zero. -/
noncomputable def cround (x : ℝ) : ℝ :=
  if 0 ≤ x then (⌊x + 1 / 2⌋ : ℤ) else (⌈x - 1 / 2⌉ : ℤ)

/-- Embedding of `default_hub_params` (src/src/camera.cpp lines 125-130). -/
def default_hub_params : Params :=
  { fov := 53, distance := 350, height := 170, shift := 0 }

/-- Embedding of `default_room_params` (src/src/camera.cpp lines 132-137). -/
def default_room_params : Params :=
  { fov := 51, distance := 260, height := 160, shift := -50 }

/-- Embedding of `default_quest_params` (src/src/camera.cpp lines 139-144). -/
def default_quest_params : Params :=
  { fov := 53, distance := 380, height := 180, shift := 0 }

/-- Embedding of `Params::from_context` (src/src/camera.cpp lines 146-153). -/
def Params.from_context : Context → Params
  | Context.Hub => default_hub_params
  | Context.Room => default_room_params
  | Context.Quest => default_quest_params

/-- Embedding of `config::Settings` (src/src/config.hpp lines 10-14)
with its default member initializers. -/
structure Settings : Type where
  fov : ℝ := 53
  distance : ℝ := 1
  height : ℝ := 1

/-- Embedding of `config::UserConfig` (src/src/config.hpp lines 16-26)
with its default member initializers. -/
structure UserConfig : Type where
  hub_cam : Settings := {}
  room_cam : Settings := {}
  quest_cam : Settings := {}
  disable_room_shift : Bool := false

/-- Embedding of `UserConfig::get_settings` (src/src/dllmain.cpp,
config.cpp part, lines 319-326). The C++ member function takes `self`
as its implicit object parameter but its body switches on the context
and returns a field of the process-wide global `g_config`, never a
field of `self`; the global is made explicit here as the argument `g`. -/
def UserConfig.get_settings (g : UserConfig) (self : UserConfig) (context : Context) : Settings :=
  match context with
  | Context.Hub => g.hub_cam
  | Context.Room => g.room_cam
  | Context.Quest => g.quest_cam

/-- Embedding of `Params::adjust` (src/src/camera.cpp lines 171-190).
In the C++ body, `config` is `config::get_config()`, which returns the
global `g_config`; since `get_settings` also reads `g_config`, the call
`config.get_settings(state.context)` is `get_settings` with both the
global and the object parameter equal to `config`. -/
noncomputable def Params.adjust (p : Params) (state : State) (config : UserConfig) : Params :=
  if state.camera_id = SurveyorSet then p else
  let settings := UserConfig.get_settings config config state.context
  let base_params := Params.from_context state.context
  let current_proj := proj_scale_from_fov p.fov
  let base_proj := proj_scale_from_fov base_params.fov
  let target_proj := proj_scale_from_fov settings.fov
  let adjusted_fov := fov_from_proj_scale (target_proj * current_proj / base_proj)
  let disable_shift := config.disable_room_shift && sets_room_context state.camera_id
  { fov := cround adjusted_fov,
    distance := cround (p.distance * settings.distance),
    height := cround (p.height * settings.height),
    shift := if disable_shift then 0 else p.shift }

/-- Raw memory of the camera object: a map from byte addresses to the
32-bit cell starting at that address, the cell value modelled as a real
number. The program only ever accesses cells at pairwise distinct,
non-overlapping addresses. -/
def Mem : Type := ℕ → ℝ

/-- Embedding of `Params::from_memory` (src/src/camera.cpp lines 155-162):
fov at +0x20, distance at +0x18 negated on read, height at +0x14,
shift at +0x10. -/
def Params.from_memory (m : Mem) (view_params : ℕ) : Params :=
  { fov := m (view_params + 0x20),
    distance := -(m (view_params + 0x18)),
    height := m (view_params + 0x14),
    shift := m (view_params + 0x10) }

/-- Embedding of `Params::to_memory` (src/src/camera.cpp lines 164-169):
writes fov at +0x20, negated distance at +0x18, height at +0x14,
shift at +0x10, in that order. -/
def Params.to_memory (p : Params) (m : Mem) (view_params : ℕ) : Mem :=
  Function.update (Function.update (Function.update (Function.update m
    (view_params + 0x20) p.fov)
    (view_params + 0x18) (-p.distance))
    (view_params + 0x14) p.height)
    (view_params + 0x10) p.shift

/-- Embedding of `camera::update` (src/src/camera.cpp lines 208-216).
The camera identifier cell at offset 0x13b8 holds a 32-bit integer that
the C++ reinterprets from the same byte store the floats live in; the
decoding of that cell to an identifier is abstracted as `idOf`. The
global tracker state is threaded as `s`; the result is the memory after
the write-back together with the updated tracker state. -/
noncomputable def camera_update (idOf : ℝ → ℕ) (m : Mem) (camera_address : ℕ)
    (s : State) (config : UserConfig) : Mem × State :=
  let param_address := camera_address + 0x5d0
  let current_params := Params.from_memory m param_address
  let camera_id := idOf (m (camera_address + 0x13b8))
  let state := s.update camera_id
  let new_params := current_params.adjust state config
  (new_params.to_memory m param_address, state)

/-! Helper lemmas shared between the claim theorems. -/

lemma sets_hub_context_iff (id : ℕ) : sets_hub_context id = true ↔
    id = 85 ∨ id = 86 ∨ id = 252 ∨ id = 253 ∨ id = 254 ∨ id = 255 := by
  simp [sets_hub_context, List.contains, BaseHub, BaseHubSprint, Seliana,
    SelianaSprint, SelianaHub, SelianaHubSprint]

lemma sets_room_context_iff (id : ℕ) : sets_room_context id = true ↔
    id = 118 ∨ id = 119 ∨ id = 120 ∨ id = 256 := by
  simp [sets_room_context, List.contains, LivingQuarters, PrivateQuarters,
    PrivateSuite, SelianaRoom]

lemma hub_not_room_quest (id : ℕ) (h : sets_hub_context id = true) :
    sets_room_context id = false ∧ sets_quest_context id = false := by
  rcases (sets_hub_context_iff id).mp h with h | h | h | h | h | h <;>
    subst h <;> exact ⟨by decide, by decide⟩

lemma room_not_quest (id : ℕ) (h : sets_room_context id = true) :
    sets_quest_context id = false := by
  rcases (sets_room_context_iff id).mp h with h | h | h | h <;> subst h <;> decide

lemma adjust_shift_eq (p : Params) (st : State) (cfg : UserConfig)
    (h : st.camera_id ≠ SurveyorSet) :
    (p.adjust st cfg).shift =
      if cfg.disable_room_shift && sets_room_context st.camera_id then 0 else p.shift := by
  unfold Params.adjust
  rw [if_neg h]

/-! Claim theorems. -/

/-- Claim C2: whenever the tracked camera identifier equals the surveyor
identifier (SurveyorSet, 147), `adjust` returns its input unchanged in
all four fields, for every input tuple, configuration and tracker state. -/
theorem adjust_surveyor_noop (p : Params) (state : State) (config : UserConfig)
    (h : state.camera_id = SurveyorSet) : p.adjust state config = p := by
  unfold Params.adjust
  rw [if_pos h]

/-- Witness for claim C2 at a concrete input. -/
theorem adjust_surveyor_noop_witness :
    Params.adjust { fov := 53, distance := 380, height := 180, shift := 0 }
      { context := Context.Quest, camera_id := 147 } {} =
      { fov := 53, distance := 380, height := 180, shift := 0 } :=
  adjust_surveyor_noop _ _ _ rfl

/-- Claim C10: `UserConfig::get_settings` ignores the instance it is
invoked on and always returns the per-context field of the process-wide
global configuration `g` (its first, explicit-global argument): the
result for `Hub` is `g.hub_cam`, for `Room` is `g.room_cam`, for `Quest`
is `g.quest_cam`, and the result never depends on the receiver. -/
theorem get_settings_ignores_receiver (g self : UserConfig) :
    UserConfig.get_settings g self Context.Hub = g.hub_cam ∧
    UserConfig.get_settings g self Context.Room = g.room_cam ∧
    UserConfig.get_settings g self Context.Quest = g.quest_cam ∧
    (∀ (other : UserConfig) (context : Context),
      UserConfig.get_settings g self context = UserConfig.get_settings g other context) := by
  refine ⟨rfl, rfl, rfl, fun other context => ?_⟩
  cases context <;> rfl

/-- Claim C3: the classifier update sets the context to `Hub` for
identifiers in the hub set, `Room` for the room set, `Quest` for the
quest set, leaves the context unchanged for identifiers in none of the
sets, and always records the new identifier as `camera_id`. -/
theorem state_update_classifies (s : State) (id : ℕ) :
    (sets_hub_context id = true → (s.update id).context = Context.Hub) ∧
    (sets_room_context id = true → (s.update id).context = Context.Room) ∧
    (sets_quest_context id = true → (s.update id).context = Context.Quest) ∧
    (sets_hub_context id = false → sets_room_context id = false →
      sets_quest_context id = false → (s.update id).context = s.context) ∧
    (s.update id).camera_id = id := by
  refine ⟨?_, ?_, ?_, ?_, rfl⟩
  · intro h
    obtain ⟨hr, hq⟩ := hub_not_room_quest id h
    simp [State.update, h, hr, hq]
  · intro h
    have hq := room_not_quest id h
    simp [State.update, h, hq]
  · intro h
    simp [State.update, h]
  · intro h1 h2 h3
    simp [State.update, h1, h2, h3]

/-- Witness for claim C3 at a concrete input (hub identifier 85). -/
theorem state_update_classifies_witness :
    (init_state.update 85).context = Context.Hub ∧ (init_state.update 85).camera_id = 85 :=
  ⟨(state_update_classifies init_state 85).1 (by decide),
   (state_update_classifies init_state 85).2.2.2.2⟩

/-- Claim C1 counterexample: with tracked context `Room` but a tracked
camera identifier (1) outside the room set — reachable, since an
unmatched identifier leaves the context sticky — and with
`disable_room_shift` set, `adjust` passes the shift through unchanged
(5, not 0), refuting that the shift is zeroed whenever the context is
`Room` and the flag is set. -/
theorem shift_zeroing_counterexample :
    ({ context := Context.Room, camera_id := 1 } : State).camera_id ≠ SurveyorSet ∧
    ({ context := Context.Room, camera_id := 1 } : State).context = Context.Room ∧
    ({ disable_room_shift := true } : UserConfig).disable_room_shift = true ∧
    (Params.adjust { fov := 53, distance := 380, height := 180, shift := 5 }
      { context := Context.Room, camera_id := 1 }
      { disable_room_shift := true }).shift = 5 ∧
    (5 : ℝ) ≠ 0 := by
  refine ⟨by decide, rfl, rfl, ?_, by norm_num⟩
  rw [adjust_shift_eq _ _ _ (by decide)]
  norm_num [sets_room_context, LivingQuarters, PrivateQuarters, PrivateSuite, SelianaRoom]

/-- Claim C1 (amended): for a non-surveyor state, `adjust` forces the
shift to exactly 0 if and only if `disable_room_shift` is set and the
tracked camera identifier is a member of the room set (the code tests
room-set membership of the identifier, not the tracked context); in
every other case the shift passes through unchanged. -/
theorem adjust_shift_spec (p : Params) (st : State) (cfg : UserConfig)
    (h : st.camera_id ≠ SurveyorSet) :
    (p.adjust st cfg).shift =
      (if cfg.disable_room_shift && sets_room_context st.camera_id then 0 else p.shift) ∧
    (p.shift ≠ 0 →
      ((p.adjust st cfg).shift = 0 ↔
        cfg.disable_room_shift = true ∧ sets_room_context st.camera_id = true)) := by
  refine ⟨adjust_shift_eq p st cfg h, fun hs => ?_⟩
  rw [adjust_shift_eq p st cfg h]
  by_cases hc : cfg.disable_room_shift && sets_room_context st.camera_id
  · rw [if_pos hc]
    simpa [Bool.and_eq_true] using hc
  · rw [if_neg hc]
    simp only [Bool.and_eq_true] at hc
    simp [hs, hc]

/-- Witness for claim C1 (amended) at a concrete input: private suite
identifier 120 with the flag set zeroes a shift of 5. -/
theorem adjust_shift_spec_witness :
    (Params.adjust { fov := 53, distance := 380, height := 180, shift := 5 }
      { context := Context.Room, camera_id := 120 }
      { disable_room_shift := true }).shift =
      (if ({ disable_room_shift := true } : UserConfig).disable_room_shift &&
          sets_room_context 120 then 0 else 5) :=
  (adjust_shift_spec { fov := 53, distance := 380, height := 180, shift := 5 }
    { context := Context.Room, camera_id := 120 }
    { disable_room_shift := true } (by decide)).1

/-- Claim C6: for every non-surveyor state, the adjusted distance is the
raw distance times the context settings distance scale, rounded to the
nearest integer, and likewise height with the height scale. -/
theorem adjust_distance_height (p : Params) (st : State) (cfg : UserConfig)
    (h : st.camera_id ≠ SurveyorSet) :
    (p.adjust st cfg).distance =
      cround (p.distance * (UserConfig.get_settings cfg cfg st.context).distance) ∧
    (p.adjust st cfg).height =
      cround (p.height * (UserConfig.get_settings cfg cfg st.context).height) := by
  unfold Params.adjust
  rw [if_neg h]
  exact ⟨rfl, rfl⟩

/-- Witness for claim C6 at a concrete input. -/
theorem adjust_distance_height_witness :
    (Params.adjust { fov := 53, distance := 380, height := 180, shift := 0 }
      { context := Context.Quest, camera_id := 0 }
      { quest_cam := { fov := 70, distance := 1.2, height := 1 } }).distance =
      cround (380 * (UserConfig.get_settings
        { quest_cam := { fov := 70, distance := 1.2, height := 1 } }
        { quest_cam := { fov := 70, distance := 1.2, height := 1 } } Context.Quest).distance) :=
  (adjust_distance_height { fov := 53, distance := 380, height := 180, shift := 0 }
    { context := Context.Quest, camera_id := 0 }
    { quest_cam := { fov := 70, distance := 1.2, height := 1 } } (by decide)).1

/-- Claim C4: for every non-surveyor state, the adjusted fov equals the
rounding to nearest integer of
`fov_from_proj_scale (proj_scale_from_fov settings.fov * proj_scale_from_fov raw.fov / proj_scale_from_fov baseline.fov)`,
where settings are the context settings of the global configuration and
the baseline is the context default parameter tuple. -/
theorem adjust_fov_formula (p : Params) (st : State) (cfg : UserConfig)
    (h : st.camera_id ≠ SurveyorSet) :
    (p.adjust st cfg).fov =
      cround (fov_from_proj_scale
        (proj_scale_from_fov (UserConfig.get_settings cfg cfg st.context).fov *
          proj_scale_from_fov p.fov /
          proj_scale_from_fov (Params.from_context st.context).fov)) := by
  unfold Params.adjust
  rw [if_neg h]

/-- Witness for claim C4 at a concrete input. -/
theorem adjust_fov_formula_witness :
    (Params.adjust { fov := 53, distance := 380, height := 180, shift := 0 }
      { context := Context.Quest, camera_id := 0 } {}).fov =
      cround (fov_from_proj_scale
        (proj_scale_from_fov (UserConfig.get_settings {} {} Context.Quest).fov *
          proj_scale_from_fov 53 /
          proj_scale_from_fov (Params.from_context Context.Quest).fov)) :=
  adjust_fov_formula { fov := 53, distance := 380, height := 180, shift := 0 }
    { context := Context.Quest, camera_id := 0 } {} (by decide)

lemma to_memory_apply_frame (p : Params) (m : Mem) (a addr : ℕ)
    (h10 : addr ≠ a + 0x10) (h14 : addr ≠ a + 0x14)
    (h18 : addr ≠ a + 0x18) (h20 : addr ≠ a + 0x20) :
    p.to_memory m a addr = m addr := by
  simp [Params.to_memory, Function.update_apply, h10, h14, h18, h20]

/-- Claim C8: the memory layout of the parameter block: `from_memory`
reads fov at +0x20, distance negated at +0x18, height at +0x14 and
shift at +0x10; `to_memory` writes exactly those cells (distance
negated on write); and reading back after a write returns the original
tuple exactly, the double negation of distance being the identity.
`camera_update` applies these at block offset 0x5d0 and reads the
identifier cell at offset 0x13b8 (see `camera_update` and claim C9). -/
theorem memory_layout_roundtrip (p : Params) (m : Mem) (a : ℕ) :
    ((Params.from_memory m a).fov = m (a + 0x20) ∧
     (Params.from_memory m a).distance = -(m (a + 0x18)) ∧
     (Params.from_memory m a).height = m (a + 0x14) ∧
     (Params.from_memory m a).shift = m (a + 0x10)) ∧
    (p.to_memory m a (a + 0x20) = p.fov ∧
     p.to_memory m a (a + 0x18) = -p.distance ∧
     p.to_memory m a (a + 0x14) = p.height ∧
     p.to_memory m a (a + 0x10) = p.shift) ∧
    Params.from_memory (p.to_memory m a) a = p := by
  have h1 : a + 0x20 ≠ a + 0x10 := by omega
  have h2 : a + 0x20 ≠ a + 0x14 := by omega
  have h3 : a + 0x20 ≠ a + 0x18 := by omega
  have h4 : a + 0x18 ≠ a + 0x10 := by omega
  have h5 : a + 0x18 ≠ a + 0x14 := by omega
  have h6 : a + 0x14 ≠ a + 0x10 := by omega
  refine ⟨⟨rfl, rfl, rfl, rfl⟩, ⟨?_, ?_, ?_, ?_⟩, ?_⟩
  · simp [Params.to_memory, Function.update_apply, h1, h2, h3]
  · simp [Params.to_memory, Function.update_apply, h3, h4, h5]
  · simp [Params.to_memory, Function.update_apply, h2, h5, h6]
  · simp [Params.to_memory, Function.update_apply]
  · cases p with
    | mk fov distance height shift =>
      simp [Params.from_memory, Params.to_memory, Function.update_apply,
        h1, h2, h3, h4, h5, h6]

/-- Claim C9: an invocation of `camera::update` writes only the four
parameter cells at offsets 0x5d0+0x10, 0x5d0+0x14, 0x5d0+0x18 and
0x5d0+0x20 from the camera base; every other cell of memory, and in
particular the camera identifier cell at offset 0x13b8, is unchanged. -/
theorem camera_update_frame (idOf : ℝ → ℕ) (m : Mem) (base : ℕ) (s : State)
    (cfg : UserConfig) :
    (∀ addr : ℕ, addr ≠ base + 0x5d0 + 0x10 → addr ≠ base + 0x5d0 + 0x14 →
      addr ≠ base + 0x5d0 + 0x18 → addr ≠ base + 0x5d0 + 0x20 →
      (camera_update idOf m base s cfg).1 addr = m addr) ∧
    (camera_update idOf m base s cfg).1 (base + 0x13b8) = m (base + 0x13b8) := by
  have frame : ∀ addr : ℕ, addr ≠ base + 0x5d0 + 0x10 → addr ≠ base + 0x5d0 + 0x14 →
      addr ≠ base + 0x5d0 + 0x18 → addr ≠ base + 0x5d0 + 0x20 →
      (camera_update idOf m base s cfg).1 addr = m addr := by
    intro addr h10 h14 h18 h20
    exact to_memory_apply_frame _ m (base + 0x5d0) addr h10 h14 h18 h20
  exact ⟨frame, frame _ (by omega) (by omega) (by omega) (by omega)⟩

/-- Witness for claim C9 at a concrete input: with all-zero memory and
base 0, the cell at address 5 is unchanged by the update. -/
theorem camera_update_frame_witness :
    (camera_update (fun _ => Normal) (fun _ => (0 : ℝ)) 0 init_state {}).1 5 = 0 :=
  (camera_update_frame (fun _ => Normal) (fun _ => (0 : ℝ)) 0 init_state {}).1 5
    (by decide) (by decide) (by decide) (by decide)

lemma half_angle_lt (x : ℝ) (h2 : x ≤ 120) : PI / 360 * x < Real.pi / 2 := by
  have hπ : (3.141592 : ℝ) < Real.pi := Real.pi_gt_d6
  have hb : PI / 360 * x ≤ PI / 360 * 120 :=
    mul_le_mul_of_nonneg_left h2 (by norm_num [PI])
  have hc : PI / 360 * 120 < Real.pi / 2 := by
    norm_num [PI]
    linarith
  linarith

lemma proj_scale_pos (x : ℝ) (h1 : 0 < x) (h2 : x ≤ 120) : 0 < proj_scale_from_fov x := by
  unfold proj_scale_from_fov
  apply Real.tan_pos_of_pos_of_lt_pi_div_two
  · exact mul_pos (by norm_num [PI]) h1
  · exact half_angle_lt x h2

lemma fov_round_trip_aux (x : ℝ) (h1 : 30 ≤ x) (h2 : x ≤ 120) :
    fov_from_proj_scale (proj_scale_from_fov x) = x := by
  have hx : (0 : ℝ) < x := by linarith
  have hlow : -(Real.pi / 2) < PI / 360 * x := by
    have hpos : (0 : ℝ) < PI / 360 * x := mul_pos (by norm_num [PI]) hx
    have := Real.pi_pos
    linarith
  have hhigh : PI / 360 * x < Real.pi / 2 := half_angle_lt x h2
  unfold fov_from_proj_scale proj_scale_from_fov
  rw [Real.arctan_tan hlow hhigh]
  have hPI : PI ≠ 0 := by norm_num [PI]
  field_simp
  ring

lemma base_proj_pos (c : Context) : 0 < proj_scale_from_fov (Params.from_context c).fov := by
  cases c <;>
    · apply proj_scale_pos <;>
        norm_num [Params.from_context, default_hub_params, default_room_params,
          default_quest_params]

/-- Claim C7: composing `proj_scale_from_fov` with `fov_from_proj_scale`
is the identity on the valid fov domain, here the configuration clamp
range [30, 120]; in the real-valued model of the float math the
round-trip is exact. -/
theorem proj_scale_roundtrip (x : ℝ) (h1 : 30 ≤ x) (h2 : x ≤ 120) :
    fov_from_proj_scale (proj_scale_from_fov x) = x :=
  fov_round_trip_aux x h1 h2

/-- Witness for claim C7 at the concrete fov 53. -/
theorem proj_scale_roundtrip_witness :
    fov_from_proj_scale (proj_scale_from_fov 53) = 53 :=
  proj_scale_roundtrip 53 (by norm_num) (by norm_num)

/-- Claim C5 (amended): for a non-surveyor state, if the raw fov equals
the tracked context's baseline fov exactly and the configured target
fov is in the valid range [30, 120], the adjusted fov equals the target
fov rounded to the nearest integer — hence exactly the target whenever
the target is integral. -/
theorem adjust_fov_at_baseline (p : Params) (st : State) (cfg : UserConfig)
    (h : st.camera_id ≠ SurveyorSet)
    (hfov : p.fov = (Params.from_context st.context).fov)
    (h1 : 30 ≤ (UserConfig.get_settings cfg cfg st.context).fov)
    (h2 : (UserConfig.get_settings cfg cfg st.context).fov ≤ 120) :
    (p.adjust st cfg).fov = cround ((UserConfig.get_settings cfg cfg st.context).fov) := by
  unfold Params.adjust
  rw [if_neg h]
  show cround (fov_from_proj_scale
      (proj_scale_from_fov (UserConfig.get_settings cfg cfg st.context).fov *
        proj_scale_from_fov p.fov /
        proj_scale_from_fov (Params.from_context st.context).fov)) = _
  rw [hfov, mul_div_cancel_right₀ _ (ne_of_gt (base_proj_pos st.context)),
    fov_round_trip_aux _ h1 h2]

/-- Witness for claim C5 (amended) at a concrete input with an integral
target fov of 70. -/
theorem adjust_fov_at_baseline_witness :
    (Params.adjust { fov := 53, distance := 380, height := 180, shift := 0 }
      { context := Context.Quest, camera_id := 0 }
      { quest_cam := { fov := 70, distance := 1, height := 1 } }).fov =
      cround ((UserConfig.get_settings
        { quest_cam := { fov := 70, distance := 1, height := 1 } }
        { quest_cam := { fov := 70, distance := 1, height := 1 } } Context.Quest).fov) :=
  adjust_fov_at_baseline { fov := 53, distance := 380, height := 180, shift := 0 }
    { context := Context.Quest, camera_id := 0 }
    { quest_cam := { fov := 70, distance := 1, height := 1 } }
    (by decide) rfl
    (by norm_num [UserConfig.get_settings])
    (by norm_num [UserConfig.get_settings])

/-- Claim C5 counterexample: with the raw fov exactly at the quest
baseline (53) and a valid but non-integral target fov of 70.5, the
adjusted fov is the rounded value 71, not the configured target 70.5:
the code rounds to the nearest integer degree, so the adjusted fov does
not equal the target in general. -/
theorem adjust_fov_at_baseline_counterexample :
    ({ context := Context.Quest, camera_id := 0 } : State).camera_id ≠ SurveyorSet ∧
    ({ fov := 53, distance := 380, height := 180, shift := 0 } : Params).fov =
      (Params.from_context Context.Quest).fov ∧
    (30 : ℝ) ≤ 70.5 ∧ (70.5 : ℝ) ≤ 120 ∧
    (Params.adjust { fov := 53, distance := 380, height := 180, shift := 0 }
      { context := Context.Quest, camera_id := 0 }
      { quest_cam := { fov := 70.5, distance := 1, height := 1 } }).fov = 71 ∧
    (71 : ℝ) ≠ 70.5 := by
  refine ⟨by decide, rfl, by norm_num, by norm_num, ?_, by norm_num⟩
  have hbase : (0 : ℝ) < proj_scale_from_fov 53 :=
    proj_scale_pos 53 (by norm_num) (by norm_num)
  unfold Params.adjust
  rw [if_neg (by decide : ¬(({ context := Context.Quest, camera_id := 0 } : State).camera_id = SurveyorSet))]
  show cround (fov_from_proj_scale
      (proj_scale_from_fov (70.5 : ℝ) * proj_scale_from_fov 53 / proj_scale_from_fov 53)) = 71
  rw [mul_div_cancel_right₀ _ (ne_of_gt hbase),
    fov_round_trip_aux 70.5 (by norm_num) (by norm_num)]
  unfold cround
  rw [if_pos (by norm_num : (0 : ℝ) ≤ 70.5)]
  norm_num

end MHW
